import Mathlib

/-!
Shallow embedding of the two core components of
`src/bin/neuronbridge_lib.py` (NeuronBridge utilities):

* `generate_jacs_uid` — the JACS-style UID generator (time / sequence /
  deployment-context / host bit-packing with retry-on-collision), and
* `get_all_s3_objects` — the paginated S3 listing generator.

Python integers are arbitrary-precision, so they are embedded as `Int`
(`x << n` is `x * 2 ^ n`, `x & 0xFF` on a non-negative value is `x % 256`).
The wall clock (`time.time()*1000`) is a parameter `clock : Nat → Int`
indexed by the number of clock reads performed so far; hostname resolution
is a parameter describing the outcome of the two `socket.gethostbyname`
calls.  Python truthiness of `next_uid` (both `None` and `0` are falsy) is
embedded by conflating the two falsy values as `0`, which is faithful
because every use of `next_uid` in the source is a truthiness test and the
equality test `last_uid == next_uid` is only reached on freshly computed
(non-`None`) candidates.
-/

namespace NeuronbridgeLib

/-- Result of running the `while` loop of `generate_jacs_uid`:
`ok u tick` means the loop exited returning candidate `u`, computed from the
clock read number `tick`; `exhausted` means the loop test failed with a falsy
`next_uid` (reaching the `print`/`sys.exit` epilogue); `outOfFuel` bounds the
unrolling of the unbounded source loop. -/
inductive GenResult where
  | ok (uid : Int) (tick : Nat)
  | exhausted
  | outOfFuel
deriving DecidableEq

/-- Result of one iteration of the loop body: either the loop will exit
returning `uid`, or it continues with a new retry index after sleeping
`sleep_ms` milliseconds (`time.sleep(0.5)` = 500 ms, or 0 = no sleep). -/
inductive StepResult where
  | ret (uid : Int)
  | retry (idx : Nat) (sleep_ms : Nat)
deriving DecidableEq

/-- `current_time_offset = 921700000000` from the source. -/
def current_time_offset : Int := 921700000000

/-- `max_tries = 1023` from the source. -/
def max_tries : Nat := 1023

/-- The candidate computed each iteration:
`time_component = int(time.time()*1000) - current_time_offset`,
`time_component = time_component << 22`, then
`next_uid = time_component + (current_index << 12) + (deployment_context << 8) + ip_component`. -/
def uid_candidate (t : Int) (idx : Nat) (dc ip : Int) : Int :=
  (t - current_time_offset) * 2 ^ 22 + (idx : Int) * 2 ^ 12 + dc * 2 ^ 8 + ip

/-- One pass through the body of the `while` loop of `generate_jacs_uid`,
given the time `t` read at the top of the body and the entering
`current_index = idx` (the loop is entered only with `next_uid` falsy).
The first branch is `if last_uid and (last_uid == next_uid)` (collision:
`next_uid = None; current_index += 1`); the second is
`if not next_uid and (current_index > max_tries)` (`time.sleep(0.5)`;
`current_index = 0`); otherwise a truthy `next_uid` makes the loop test
fail and the candidate is returned. -/
def loop_body (t : Int) (dc ip last_uid : Int) (idx : Nat) : StepResult :=
  if last_uid ≠ 0 ∧ last_uid = uid_candidate t idx dc ip then
    if idx + 1 > max_tries then .retry 0 500 else .retry (idx + 1) 0
  else if uid_candidate t idx dc ip = 0 then
    if idx > max_tries then .retry 0 500 else .retry idx 0
  else .ret (uid_candidate t idx dc ip)

/-- The `while (current_index <= max_tries) and not next_uid` loop of
`generate_jacs_uid`, unrolled on `fuel`; `tick` counts clock reads. -/
def generate_loop (clock : Nat → Int) (dc ip last_uid : Int) :
    Nat → Nat → Nat → GenResult
  | 0, _, _ => .outOfFuel
  | fuel + 1, tick, idx =>
    if idx > max_tries then .exhausted
    else
      match loop_body (clock tick) dc ip last_uid idx with
      | .ret u => .ok u tick
      | .retry idx' _ => generate_loop clock dc ip last_uid fuel (tick + 1) idx'

/-- The `try: ipa = socket.gethostbyname(socket.gethostname()) except Exception:
ipa = socket.gethostbyname('localhost')` block.  `host_resolution` is the
outcome of resolving the local hostname (`none` = any exception raised),
`loopback_resolution` the outcome of resolving `'localhost'`; an IPv4 dotted
address is embedded as its list of octet values. -/
def resolve_ipa (host_resolution loopback_resolution : Option (List Nat)) :
    Option (List Nat) :=
  match host_resolution with
  | some a => some a
  | none => loopback_resolution

/-- `ip_component = int(ipa.split('.')[-1]) & 0xFF`: the last dotted octet of
the resolved address, masked to 8 bits. -/
def ip_component (ipa : List Nat) : Int :=
  ((ipa.getLastD 0 % 256 : Nat) : Int)

/-- Top-level outcome of a call to `generate_jacs_uid`, as observed by the
caller: a returned UID (with the clock-read index that produced it), process
termination via `sys.exit`, a raised `NameError`, a raised resolution error
(`socket.gethostbyname('localhost')` itself failing propagates), or the
unrolling bound being reached. -/
inductive PyOutcome where
  | returns (uid : Int) (tick : Nat)
  | processExit (code : Int)
  | raisesNameError
  | raisesResolutionError
  | outOfFuel
deriving DecidableEq

/-- The import list at the top of `neuronbridge_lib.py`:
`glob`, `os.path`, `re`, `socket`, `time`, and
`from simple_term_menu import TerminalMenu`.  Note that `sys` is absent. -/
def module_imports : List String :=
  ["glob", "os.path", "re", "socket", "time", "simple_term_menu"]

/-- The epilogue of `generate_jacs_uid`:
`if not next_uid: print("Could not generate JACS UID"); sys.exit(-1)` else
`return next_uid`.  The name `sys` resolves (and the process exits with code
`-1`) only if the module imports `sys`; otherwise evaluating `sys.exit`
raises a `NameError`. -/
def uid_epilogue (r : GenResult) : PyOutcome :=
  match r with
  | .ok u tick => .returns u tick
  | .exhausted =>
      if "sys" ∈ module_imports then .processExit (-1) else .raisesNameError
  | .outOfFuel => .outOfFuel

/-- The whole of `generate_jacs_uid(deployment_context=2, last_uid=None)`:
resolve the host component, run the retry loop, then the return/exit
epilogue.  `last_uid = 0` embeds both Python `None` and `0` (both falsy,
and both skip the collision test `if last_uid and ...`). -/
def generate_jacs_uid (clock : Nat → Int)
    (host_resolution loopback_resolution : Option (List Nat))
    (deployment_context last_uid : Int) (fuel : Nat) : PyOutcome :=
  match resolve_ipa host_resolution loopback_resolution with
  | none => .raisesResolutionError
  | some ipa =>
      uid_epilogue
        (generate_loop clock deployment_context (ip_component ipa) last_uid fuel 0 0)

/-- Decoder for the 10-bit sequence-index field (bits 12–21) of an
identifier, per the spec's field layout. -/
def seq_index_field (u : Int) : Int := (u / 2 ^ 12) % 2 ^ 10

/-- Decoder for the 4-bit deployment-context field (bits 8–11) of an
identifier, per the spec's field layout. -/
def deployment_context_field (u : Int) : Int := (u / 2 ^ 8) % 2 ^ 4

/-- Decoder for the 8-bit host-component field (bits 0–7) of an identifier,
per the spec's field layout. -/
def host_field (u : Int) : Int := u % 2 ^ 8

section S3

variable {α : Type}

/-- A `list_objects_v2` response: `Contents` (default `[]`), the truthiness
of `IsTruncated` (absent = falsy), and `NextContinuationToken` (absent =
`None`). -/
structure S3Response (α : Type) where
  contents : List α
  is_truncated : Bool
  next_continuation_token : Option String

/-- Observable events of a run of the `get_all_s3_objects` generator:
a page request carrying the `ContinuationToken` attached to it (if any),
an entry yielded to the consumer, a transport error propagating out of the
generator, or clean termination (`break`). -/
inductive S3Event (α : Type) where
  | request (continuation : Option String)
  | entry (e : α)
  | transport_error
  | finished
deriving DecidableEq

/-- Python truthiness of `continuation_token` in
`if continuation_token: list_kwargs['ContinuationToken'] = continuation_token`:
`None` and the empty string are falsy, so no token is attached for them. -/
def truthy_token : Option String → Option String
  | none => none
  | some s => if s = "" then none else some s

/-- Trace semantics of the `get_all_s3_objects` generator.  `client` maps the
attached `ContinuationToken` (with fixed `MaxKeys=1000` and `base_kwargs`) to
the outcome of `s3c.list_objects_v2`; a `.error` outcome is a transport error
raised by the call.  Each loop iteration emits the request, then (on success)
yields every entry of `response.get('Contents', [])` in order, then either
terminates (`if not response.get('IsTruncated'): break`) or continues with
`continuation_token = response.get('NextContinuationToken')`.  `fuel` bounds
how many pages the consumer pulls through the unbounded source loop. -/
def get_all_s3_objects (client : Option String → Except Unit (S3Response α)) :
    Nat → Option String → List (S3Event α)
  | 0, _ => []
  | fuel + 1, continuation_token =>
    let tok := truthy_token continuation_token
    S3Event.request tok ::
      match client tok with
      | .error _ => [S3Event.transport_error]
      | .ok response =>
          response.contents.map S3Event.entry ++
            (if response.is_truncated then
              get_all_s3_objects client fuel response.next_continuation_token
            else [S3Event.finished])

/-- Test double for C5: first page `{Contents:[a,b], IsTruncated:true,
NextContinuationToken:"X"}`, any continued page `{Contents:[c],
IsTruncated:false}`. -/
def two_page_client (a b c : Nat) : Option String → Except Unit (S3Response Nat) :=
  fun tok =>
    match tok with
    | none => .ok ⟨[a, b], true, some "X"⟩
    | some _ => .ok ⟨[c], false, none⟩

/-- Test double for C6: first page as in `two_page_client`, but the second
request raises a transport error. -/
def error_page_client (a b : Nat) : Option String → Except Unit (S3Response Nat) :=
  fun tok =>
    match tok with
    | none => .ok ⟨[a, b], true, some "X"⟩
    | some _ => .error ()

/-- Test double for C10: a page that is marked truncated but carries no
`NextContinuationToken`; any request that did carry a token would error. -/
def truncated_no_token_client (a : Nat) : Option String → Except Unit (S3Response Nat) :=
  fun tok =>
    match tok with
    | none => .ok ⟨[a], true, none⟩
    | some _ => .error ()

/-- Predicate picking out the request events of a trace. -/
def is_request : S3Event α → Bool
  | .request _ => true
  | _ => false

end S3

/-! ### Inversion lemmas for the generator loop -/

/-- If a loop-body pass returns a candidate, that candidate is the bit-packed
formula value for the entering index, it is nonzero (truthy), and it differs
from `last_uid`. -/
theorem loop_body_ret_inv (t dc ip lu : Int) (idx : Nat) (u : Int)
    (h : loop_body t dc ip lu idx = .ret u) :
    u = uid_candidate t idx dc ip ∧ u ≠ 0 ∧ lu ≠ u := by
  unfold loop_body at h
  split_ifs at h with h1 h2 h3 h4
  injection h with hu
  refine ⟨hu.symm, by rw [← hu]; exact h3, ?_⟩
  intro he
  exact h1 ⟨by rw [he, ← hu]; exact h3, he.trans hu.symm⟩

/-- If the unrolled loop returns `ok u tk`, then `u` is the candidate formula
at the time read `tk` for some in-range index, is nonzero, and differs from
`last_uid`. -/
theorem generate_loop_ok_inv (clock : Nat → Int) (dc ip lu : Int) :
    ∀ (fuel tick idx : Nat) (u : Int) (tk : Nat),
      generate_loop clock dc ip lu fuel tick idx = .ok u tk →
      ∃ i : Nat, i ≤ max_tries ∧ u = uid_candidate (clock tk) i dc ip ∧
        u ≠ 0 ∧ lu ≠ u := by
  intro fuel
  induction fuel with
  | zero => intro tick idx u tk h; simp [generate_loop] at h
  | succ n ih =>
    intro tick idx u tk h
    rw [generate_loop] at h
    by_cases hidx : idx > max_tries
    · rw [if_pos hidx] at h; exact absurd h (by simp)
    · rw [if_neg hidx] at h
      cases hb : loop_body (clock tick) dc ip lu idx with
      | ret v =>
        rw [hb] at h
        cases h
        obtain ⟨hc, hn, hl⟩ := loop_body_ret_inv _ _ _ _ _ _ hb
        exact ⟨idx, Nat.le_of_not_lt hidx, hc, hn, hl⟩
      | retry idx' s =>
        rw [hb] at h
        exact ih (tick + 1) idx' u tk h

/-- The epilogue yields `returns u tk` exactly when the loop produced
`ok u tk` (the exhausted branch raises `NameError`, since `sys` is not
imported). -/
theorem uid_epilogue_returns_inv (r : GenResult) (u : Int) (tk : Nat)
    (h : uid_epilogue r = .returns u tk) : r = .ok u tk := by
  cases r with
  | ok v t =>
    simp only [uid_epilogue] at h
    injection h with h1 h2
    rw [h1, h2]
  | exhausted =>
    rw [show uid_epilogue GenResult.exhausted = PyOutcome.raisesNameError from by decide] at h
    exact absurd h (by simp)
  | outOfFuel => exact absurd h (by simp [uid_epilogue])

/-- If the full `generate_jacs_uid` returns a UID, then the host resolution
succeeded with some address and the UID is the candidate formula built from
its masked last octet, at an in-range index, nonzero and distinct from
`last_uid`. -/
theorem generate_jacs_uid_returns_inv (clock : Nat → Int)
    (hres lres : Option (List Nat)) (dc lu : Int) (fuel : Nat)
    (u : Int) (tk : Nat)
    (h : generate_jacs_uid clock hres lres dc lu fuel = .returns u tk) :
    ∃ ipa, resolve_ipa hres lres = some ipa ∧
      ∃ i : Nat, i ≤ max_tries ∧
        u = uid_candidate (clock tk) i dc (ip_component ipa) ∧
        u ≠ 0 ∧ lu ≠ u := by
  unfold generate_jacs_uid at h
  cases hr : resolve_ipa hres lres with
  | none => rw [hr] at h; exact absurd h (by simp)
  | some ipa =>
    rw [hr] at h
    have hok := uid_epilogue_returns_inv _ _ _ h
    obtain ⟨i, hi, hc, hn, hl⟩ :=
      generate_loop_ok_inv clock dc (ip_component ipa) lu fuel 0 0 u tk hok
    exact ⟨ipa, rfl, i, hi, hc, hn, hl⟩

/-! ### Claim theorems -/

/-- C1: for every valid pair of inputs `(deployment_context, last_id)` and
every clock/host-resolution behaviour, a value returned by
`generate_jacs_uid` is never equal to the supplied `last_id` — in
particular also when `last_id = 0` (a returned UID is always truthy, i.e.
nonzero, so it cannot equal a falsy `last_id` either). -/
theorem generate_jacs_uid_ne_last_uid (clock : Nat → Int)
    (hres lres : Option (List Nat)) (dc lu : Int) (fuel : Nat)
    (u : Int) (tk : Nat)
    (h : generate_jacs_uid clock hres lres dc lu fuel = .returns u tk) :
    u ≠ lu := by
  obtain ⟨ipa, -, i, -, -, -, hl⟩ :=
    generate_jacs_uid_returns_inv clock hres lres dc lu fuel u tk h
  exact hl.symm

/-- Witness for C1: a concrete run (constant clock one millisecond past the
epoch constant, host resolving to `127.0.0.1`, `last_id = 0`) returns
`4194817`, which differs from the supplied `last_id`. -/
theorem generate_jacs_uid_ne_last_uid_witness : (4194817 : Int) ≠ 0 :=
  generate_jacs_uid_ne_last_uid (fun _ => 921700000001)
    (some [127, 0, 0, 1]) (some [127, 0, 0, 1]) 2 0 1 4194817 0 (by decide)

/-- C2: every identifier produced by `generate_jacs_uid` equals
`((time_in_ms - 921700000000) << 22) + (retry_index << 12) +
(deployment_context << 8) + host_component`, where the time is the
millisecond clock value read for that candidate, the retry index is at most
1023, and the host component is the last dotted octet of the resolved IPv4
address masked to 8 bits. -/
theorem generate_jacs_uid_candidate_formula (clock : Nat → Int)
    (hres lres : Option (List Nat)) (dc lu : Int) (fuel : Nat)
    (u : Int) (tk : Nat)
    (h : generate_jacs_uid clock hres lres dc lu fuel = .returns u tk) :
    ∃ idx : Nat, idx ≤ 1023 ∧ ∃ ipa,
      resolve_ipa hres lres = some ipa ∧
      u = (clock tk - 921700000000) * 2 ^ 22 + (idx : Int) * 2 ^ 12 +
          dc * 2 ^ 8 + ((ipa.getLastD 0 % 256 : Nat) : Int) := by
  obtain ⟨ipa, hr, i, hi, hc, -, -⟩ :=
    generate_jacs_uid_returns_inv clock hres lres dc lu fuel u tk h
  exact ⟨i, hi, ipa, hr, hc⟩

/-- Witness for C2: the concrete run of the C1 witness satisfies the
formula with retry index 0 and host component 1. -/
theorem generate_jacs_uid_candidate_formula_witness :
    ∃ idx : Nat, idx ≤ 1023 ∧ ∃ ipa,
      resolve_ipa (some [127, 0, 0, 1]) (some [127, 0, 0, 1]) = some ipa ∧
      (4194817 : Int) = (921700000001 - 921700000000) * 2 ^ 22 +
        (idx : Int) * 2 ^ 12 + 2 * 2 ^ 8 + ((ipa.getLastD 0 % 256 : Nat) : Int) :=
  generate_jacs_uid_candidate_formula (fun _ => 921700000001)
    (some [127, 0, 0, 1]) (some [127, 0, 0, 1]) 2 0 1 4194817 0 (by decide)

/-- C4: decoding the bit fields of a returned identifier (bits 8–11 for the
deployment context, bits 0–7 for the host component) recovers exactly the
`deployment_context` passed to the call — it being a valid 4-bit tag — and
the host component computed at generation time from the resolved address. -/
theorem generate_jacs_uid_field_roundtrip (clock : Nat → Int)
    (hres lres : Option (List Nat)) (dc lu : Int) (fuel : Nat)
    (u : Int) (tk : Nat)
    (h : generate_jacs_uid clock hres lres dc lu fuel = .returns u tk)
    (hdc0 : 0 ≤ dc) (hdc : dc < 16) :
    ∃ ipa, resolve_ipa hres lres = some ipa ∧
      deployment_context_field u = dc ∧ host_field u = ip_component ipa := by
  obtain ⟨ipa, hr, i, -, hc, -, -⟩ :=
    generate_jacs_uid_returns_inv clock hres lres dc lu fuel u tk h
  refine ⟨ipa, hr, ?_, ?_⟩
  · have hip0 : (0 : Int) ≤ ip_component ipa := Int.ofNat_nonneg _
    have hip : ip_component ipa < 256 := by
      rw [ip_component]
      have := Nat.mod_lt (ipa.getLastD 0) (show 0 < 256 by decide)
      omega
    rw [deployment_context_field, hc, uid_candidate]
    omega
  · have hip0 : (0 : Int) ≤ ip_component ipa := Int.ofNat_nonneg _
    have hip : ip_component ipa < 256 := by
      rw [ip_component]
      have := Nat.mod_lt (ipa.getLastD 0) (show 0 < 256 by decide)
      omega
    rw [host_field, hc, uid_candidate]
    omega

/-- Witness for C4: the concrete run of the C1 witness round-trips its
deployment context (2) and host component (1). -/
theorem generate_jacs_uid_field_roundtrip_witness :
    ∃ ipa, resolve_ipa (some [127, 0, 0, 1]) (some [127, 0, 0, 1]) = some ipa ∧
      deployment_context_field 4194817 = 2 ∧ host_field 4194817 = ip_component ipa :=
  generate_jacs_uid_field_roundtrip (fun _ => 921700000001)
    (some [127, 0, 0, 1]) (some [127, 0, 0, 1]) 2 0 1 4194817 0 (by decide)
    (by decide) (by decide)

/-- C7 (code bug): on identifier exhaustion (the loop ending with a falsy
`next_uid`), `generate_jacs_uid` prints its diagnostic and then evaluates
`sys.exit(-1)` — but the module never imports `sys`, so this raises a
`NameError` instead of terminating the calling process. -/
theorem exhaustion_raises_name_error :
    uid_epilogue GenResult.exhausted = PyOutcome.raisesNameError ∧
    uid_epilogue GenResult.exhausted ≠ PyOutcome.processExit (-1) := by
  decide

/-- C9: when resolving the local hostname fails, `generate_jacs_uid` falls
back to the loopback resolution, the primary failure is never surfaced to
the caller (the call behaves exactly as a run whose host component is taken
from the loopback address, and never raises a resolution error), and the
host component is the masked last octet of the loopback address. -/
theorem resolution_failure_falls_back (clock : Nat → Int)
    (lres : Option (List Nat)) (dc lu : Int) (fuel : Nat) (ipa : List Nat) :
    resolve_ipa none lres = lres ∧
    (lres = some ipa →
      generate_jacs_uid clock none lres dc lu fuel =
        uid_epilogue (generate_loop clock dc (ip_component ipa) lu fuel 0 0) ∧
      generate_jacs_uid clock none lres dc lu fuel ≠ .raisesResolutionError) := by
  refine ⟨rfl, ?_⟩
  rintro rfl
  refine ⟨rfl, ?_⟩
  show uid_epilogue _ ≠ _
  cases hg : generate_loop clock dc (ip_component ipa) lu fuel 0 0 with
  | ok v t => simp [uid_epilogue]
  | exhausted => decide
  | outOfFuel => simp [uid_epilogue]

/-- Witness for C9: with the local hostname unresolvable and loopback
resolving to `127.0.0.1`, a concrete call returns the UID built from host
component 1 and never surfaces the resolution failure. -/
theorem resolution_failure_falls_back_witness :
    generate_jacs_uid (fun _ => 921700000001) none (some [127, 0, 0, 1]) 2 0 1 =
      uid_epilogue (generate_loop (fun _ => 921700000001) 2
        (ip_component [127, 0, 0, 1]) 0 1 0 0) ∧
    generate_jacs_uid (fun _ => 921700000001) none (some [127, 0, 0, 1]) 2 0 1 ≠
      PyOutcome.raisesResolutionError :=
  (resolution_failure_falls_back (fun _ => 921700000001)
    (some [127, 0, 0, 1]) 2 0 1 [127, 0, 0, 1]).2 rfl

/-- C3 counterexample: with a fixed clock (one millisecond past the epoch
constant), host component 5 and deployment context 2, three chained calls
(each receiving the previous result as `last_id`) return `4194821` (sequence
index 0), `4198917` (sequence index 1), and then `4194821` again — the third
call's sequence-index field drops back to 0 and its value repeats the first
call's, so the encoded sequence indices are not strictly increasing and the
1023 cap is never reached. -/
theorem same_ms_chained_calls_repeat :
    generate_jacs_uid (fun _ => 921700000001) (some [10, 0, 0, 5])
        (some [127, 0, 0, 1]) 2 0 4 = .returns 4194821 0 ∧
    generate_jacs_uid (fun _ => 921700000001) (some [10, 0, 0, 5])
        (some [127, 0, 0, 1]) 2 4194821 4 = .returns 4198917 1 ∧
    generate_jacs_uid (fun _ => 921700000001) (some [10, 0, 0, 5])
        (some [127, 0, 0, 1]) 2 4198917 4 = .returns 4194821 0 ∧
    seq_index_field 4194821 = 0 ∧ seq_index_field 4198917 = 1 ∧
    ¬ seq_index_field 4194821 > seq_index_field 4198917 := by
  refine ⟨by decide, by decide, by decide, by decide, by decide, by decide⟩

/-- C3 amended: for a fixed clock value and fixed host component, each call
returns the lowest-index nonzero candidate of that millisecond that differs
from its `last_id`: a call whose `last_id` is the millisecond's index-0
candidate returns the index-1 candidate, and any other call returns the
index-0 candidate.  Chained same-millisecond calls therefore alternate
between sequence indices 0 and 1 (consecutive results are distinct, but the
indices are not strictly increasing and the 1023 cap is never approached). -/
theorem generate_loop_same_ms_alternation (T dc ip lu : Int) (fuel tick : Nat)
    (h0 : uid_candidate T 0 dc ip ≠ 0) (h1 : uid_candidate T 1 dc ip ≠ 0) :
    (lu = uid_candidate T 0 dc ip →
      generate_loop (fun _ => T) dc ip lu (fuel + 2) tick 0 =
        .ok (uid_candidate T 1 dc ip) (tick + 1)) ∧
    (lu ≠ uid_candidate T 0 dc ip →
      generate_loop (fun _ => T) dc ip lu (fuel + 1) tick 0 =
        .ok (uid_candidate T 0 dc ip) tick) := by
  have hne : uid_candidate T 0 dc ip ≠ uid_candidate T 1 dc ip := by
    rw [uid_candidate, uid_candidate]
    intro hcontra
    omega
  constructor
  · intro hlu
    show generate_loop (fun _ => T) dc ip lu (fuel + 1 + 1) tick 0 = _
    rw [generate_loop, if_neg (by decide : ¬ (0 : Nat) > max_tries)]
    rw [show loop_body ((fun _ => T) tick) dc ip lu 0 = .retry 1 0 from by
      rw [loop_body, if_pos ⟨hlu.symm ▸ h0, hlu⟩]
      exact if_neg (by rw [max_tries]; omega)]
    show generate_loop (fun _ => T) dc ip lu (fuel + 1) (tick + 1) 1 = _
    rw [generate_loop, if_neg (by decide : ¬ (1 : Nat) > max_tries)]
    rw [show loop_body ((fun _ => T) (tick + 1)) dc ip lu 1 = .ret (uid_candidate T 1 dc ip) from by
      rw [loop_body, if_neg (fun hc => hne (hlu ▸ hc.2)), if_neg h1]]
  · intro hlu
    rw [generate_loop, if_neg (by decide : ¬ (0 : Nat) > max_tries)]
    rw [show loop_body ((fun _ => T) tick) dc ip lu 0 = .ret (uid_candidate T 0 dc ip) from by
      rw [loop_body, if_neg (fun hc => hlu hc.2), if_neg h0]]

/-- Witness for the amended C3: at the concrete inputs of the counterexample,
a call whose `last_id` is the index-0 candidate returns the index-1
candidate of the same millisecond. -/
theorem generate_loop_same_ms_alternation_witness :
    generate_loop (fun _ => 921700000001) 2 5 4194821 2 0 0 =
      GenResult.ok 4198917 1 :=
  (generate_loop_same_ms_alternation 921700000001 2 5 4194821 0 0
    (by decide) (by decide)).1 (by decide)

/-- C8: a collision with `last_id` discards the candidate and increments the
retry index; if the incremented index is still within the 1023 maximum the
loop retries immediately with it (no sleep), and if it exceeds 1023 the
generator sleeps 500 milliseconds, resets the retry index to 0, and resumes
looping. -/
theorem collision_retry_and_cap_reset (clock : Nat → Int) (dc ip lu : Int)
    (fuel tick idx : Nat)
    (hlu : lu ≠ 0) (hcol : lu = uid_candidate (clock tick) idx dc ip) :
    (idx < 1023 →
      loop_body (clock tick) dc ip lu idx = .retry (idx + 1) 0 ∧
      generate_loop clock dc ip lu (fuel + 1) tick idx =
        generate_loop clock dc ip lu fuel (tick + 1) (idx + 1)) ∧
    (idx = 1023 →
      loop_body (clock tick) dc ip lu idx = .retry 0 500 ∧
      generate_loop clock dc ip lu (fuel + 1) tick idx =
        generate_loop clock dc ip lu fuel (tick + 1) 0) := by
  constructor
  · intro hidx
    have hb : loop_body (clock tick) dc ip lu idx = .retry (idx + 1) 0 := by
      rw [loop_body, if_pos ⟨hlu, hcol⟩]
      exact if_neg (by rw [max_tries]; omega)
    refine ⟨hb, ?_⟩
    rw [generate_loop, if_neg (by rw [max_tries]; omega), hb]
  · intro hidx
    have hb : loop_body (clock tick) dc ip lu idx = .retry 0 500 := by
      rw [loop_body, if_pos ⟨hlu, hcol⟩]
      exact if_pos (by rw [max_tries]; omega)
    refine ⟨hb, ?_⟩
    rw [generate_loop, if_neg (by rw [max_tries]; omega), hb]

/-- Witness for C8: a concrete collision at index 0 (same inputs as the C3
counterexample) retries immediately at index 1 with no sleep. -/
theorem collision_retry_and_cap_reset_witness :
    loop_body 921700000001 2 5 4194821 0 = .retry 1 0 ∧
    generate_loop (fun _ => 921700000001) 2 5 4194821 1 0 0 =
      generate_loop (fun _ => 921700000001) 2 5 4194821 0 1 1 :=
  (collision_retry_and_cap_reset (fun _ => 921700000001) 2 5 4194821 0 0 0
    (by decide) (by decide)).1 (by decide)

/-- C5: on a paged listing whose first page holds entries `a, b`, is
truncated and carries continuation token `"X"`, and whose second page holds
entry `c` and is not truncated, the iterator emits exactly the trace
request–yield `a`–yield `b`–request(with token `"X"`)–yield `c`–finish:
it yields exactly `[a, b, c]` in order, issues exactly 2 page requests, the
second carrying token `"X"`, and all entries of a page are yielded before
the next request is issued. -/
theorem get_all_s3_objects_two_pages (a b c : Nat) (fuel : Nat) :
    get_all_s3_objects (two_page_client a b c) (fuel + 2) none =
      [.request none, .entry a, .entry b, .request (some "X"), .entry c,
        .finished] ∧
    ((get_all_s3_objects (two_page_client a b c) (fuel + 2) none).countP
      is_request) = 2 := by
  constructor <;> rfl

/-- C6: when the page-fetch raises a transport error on the second request,
the iterator first yields every entry of the first page, then the error
surfaces to the consumer on the in-progress pull; no third request is ever
issued and no further entries are yielded after the error event. -/
theorem get_all_s3_objects_error_second_page (a b : Nat) (fuel : Nat) :
    get_all_s3_objects (error_page_client a b) (fuel + 2) none =
      [.request none, .entry a, .entry b, .request (some "X"),
        .transport_error] := by
  rfl

/-- C10: when a page is marked truncated but carries no continuation token,
the next request is issued with no `ContinuationToken` at all — identical to
the initial request — so enumeration restarts from the first page; the run
never terminates cleanly and never errors, for any amount of fuel. -/
theorem get_all_s3_objects_truncated_no_token (a : Nat) (fuel : Nat) :
    get_all_s3_objects (truncated_no_token_client a) (fuel + 1) none =
      .request none :: .entry a ::
        get_all_s3_objects (truncated_no_token_client a) fuel none ∧
    S3Event.finished ∉ get_all_s3_objects (truncated_no_token_client a) fuel none ∧
    S3Event.transport_error ∉
      get_all_s3_objects (truncated_no_token_client a) fuel none := by
  refine ⟨rfl, ?_, ?_⟩ <;>
  · induction fuel with
    | zero => simp [get_all_s3_objects]
    | succ n ih =>
      rw [show get_all_s3_objects (truncated_no_token_client a) (n + 1) none =
        .request none :: .entry a ::
          get_all_s3_objects (truncated_no_token_client a) n none from rfl]
      simp only [List.mem_cons]
      rintro (h | h | h) <;> first
        | exact absurd h (by simp)
        | exact ih h

end NeuronbridgeLib
